import Mathlib

/-!
Verification development for the Antigravity-Manager CLI
(`src-tauri/src/bin/cli.rs`).

The CLI drives external collaborators (account store, OAuth client, config
store, proxy server).  Those collaborators live outside the file under
verification, so they are embedded as explicit function parameters
(oracles) returning `Except String _`, mirroring the Rust
`Result<_, String>` signatures.  Each CLI operation is translated into a
pure Lean function that returns its `Result` value together with a trace
of the observable collaborator calls it performed.
-/

namespace Antigravity

/-! Data model (from the repository's models, mirrored per the spec where
the struct definitions are outside the file under verification). -/

structure Quota where
  subscription_tier : Option String
  is_forbidden : Bool
  models : List String
deriving DecidableEq, Repr

structure TokenData where
  access_token : String
  refresh_token : String
  expires_in : Int
  email : Option String
  project_id : Option String
  session_id : Option String
deriving DecidableEq, Repr

/-- Modelled from the spec: `TokenData::new(access_token, refresh_token,
expires_in, email, project_id, session_id)` packs its arguments into a
fresh `TokenData` record (the constructor lives in the library crate,
whose source is not part of this repository snapshot). -/
def TokenData.new (access refresh : String) (expires : Int)
    (email project session : Option String) : TokenData :=
  ⟨access, refresh, expires, email, project, session⟩

structure Account where
  id : String
  email : String
  name : Option String
  token : TokenData
  quota : Option Quota
deriving DecidableEq, Repr

/-- Modelled from the spec: `Account::update_quota` replaces the stored
quota snapshot with the freshly fetched one (library crate method). -/
def Account.update_quota (a : Account) (q : Quota) : Account :=
  { a with quota := some q }

/-- One entry of the persisted account index. -/
structure AccountIndexEntry where
  id : String
deriving DecidableEq, Repr

/-- The persisted account index: the set of known account identifiers. -/
structure AccountIndex where
  accounts : List AccountIndexEntry
deriving DecidableEq, Repr

/-! `resolve_account_id` (cli.rs lines 335-353): exact match first, then
unique-prefix match. The index is passed explicitly in place of the
`load_account_index()` collaborator call. -/

/-- Rust `str::starts_with` on valid UTF-8 strings: the candidate's
character sequence begins with the pattern's character sequence. -/
def str_starts_with (s pat : String) : Bool :=
  pat.data.isPrefixOf s.data

def resolve_account_id (index : AccountIndex) (id : String) :
    Except String String :=
  if index.accounts.any (fun a => a.id == id) then
    .ok id
  else
    match index.accounts.filter (fun a => str_starts_with a.id id) with
    | [] => .error ("找不到账号: " ++ id)
    | [a] => .ok a.id
    | _ => .error ("ID 前缀 " ++ id ++ " 匹配多个账号，请提供更长的 ID")

/-- `account_switch` (cli.rs lines 250-261): resolve the (possibly short)
id, load the account, then `set_current_account_id`.  The second
component of the result lists the identifiers passed to
`set_current_account_id`, in order. -/
def account_switch (index : AccountIndex)
    (load_account : String → Except String Account)
    (set_current_account_id : String → Except String Unit)
    (id : String) : Except String Unit × List String :=
  match resolve_account_id index id with
  | .error e => (.error e, [])
  | .ok full_id =>
    match load_account full_id with
    | .error e => (.error e, [])
    | .ok _account =>
      match set_current_account_id full_id with
      | .error e => (.error e, [full_id])
      | .ok _ => (.ok (), [full_id])

/-! `account_refresh` (cli.rs lines 288-332): iterate over all accounts,
fetch each account's quota (`fetch_quota_with_retry`), on success update
the in-memory record and save it, counting one success or one error per
account; a per-account failure never stops the loop and the whole
operation returns `Ok(())`. -/

/-- Aggregate outcome of the refresh loop: the final in-memory account
records (in order), the accounts passed to `save_account` (in call
order), and the success / error counters printed at the end. -/
structure RefreshOutcome where
  final : List Account
  saved : List Account
  success_count : Nat
  error_count : Nat
deriving DecidableEq, Repr

/-- One iteration of the refresh loop body: returns the account's final
in-memory state, the `save_account` calls issued, and whether the
iteration counted as a success. -/
def refresh_one (fetch_quota : Account → Except String Quota)
    (save_account : Account → Except String Unit) (a : Account) :
    Account × List Account × Bool :=
  match fetch_quota a with
  | .ok q =>
    let a2 := a.update_quota q
    match save_account a2 with
    | .ok _ => (a2, [a2], true)
    | .error _ => (a2, [a2], false)
  | .error _ => (a, [], false)

/-- Folding one loop iteration into the aggregate outcome. -/
def refresh_step (fetch_quota : Account → Except String Quota)
    (save_account : Account → Except String Unit)
    (r : RefreshOutcome) (a : Account) : RefreshOutcome :=
  let p := refresh_one fetch_quota save_account a
  ⟨r.final ++ [p.1], r.saved ++ p.2.1,
   r.success_count + (if p.2.2 then 1 else 0),
   r.error_count + (if p.2.2 then 0 else 1)⟩

def account_refresh (fetch_quota : Account → Except String Quota)
    (save_account : Account → Except String Unit)
    (accounts : List Account) : RefreshOutcome × Except String Unit :=
  if accounts.isEmpty then
    (⟨[], [], 0, 0⟩, .ok ())
  else
    (accounts.foldl (refresh_step fetch_quota save_account)
      ⟨[], [], 0, 0⟩, .ok ())

/-- The final in-memory state of one account after the refresh loop, as a
function of the fetch outcome alone. -/
def refresh_final (fetch_quota : Account → Except String Quota)
    (a : Account) : Account :=
  match fetch_quota a with
  | .ok q => a.update_quota q
  | .error _ => a

/-- The `save_account` call (if any) issued for one account by the
refresh loop, as a function of the fetch outcome alone. -/
def refresh_saved (fetch_quota : Account → Except String Quota)
    (a : Account) : Option Account :=
  match fetch_quota a with
  | .ok q => some (a.update_quota q)
  | .error _ => none

/-- Whether one refresh-loop iteration counts as a success (quota fetched
and the updated record saved). -/
def refresh_success (fetch_quota : Account → Except String Quota)
    (save_account : Account → Except String Unit) (a : Account) : Bool :=
  match fetch_quota a with
  | .ok q =>
    match save_account (a.update_quota q) with
    | .ok _ => true
    | .error _ => false
  | .error _ => false

/-! `account_add` (cli.rs lines 200-237): exchange the refresh token for
an access token, fetch user info with that access token, build a
`TokenData` and upsert the account. -/

structure TokenResponse where
  access_token : String
  expires_in : Int
deriving DecidableEq, Repr

structure UserInfo where
  email : String
  display_name : Option String
deriving DecidableEq, Repr

/-- Modelled from the spec: `UserInfo::get_display_name` returns the
profile's display name (library crate method; the spec exposes
`UserInfo{email, displayName}`). -/
def UserInfo.get_display_name (u : UserInfo) : Option String :=
  u.display_name

/-- `account_add`.  The second component records the arguments of each
`upsert_account` call (email, display name, token data), in call order. -/
def account_add
    (refresh_access_token : String → Except String TokenResponse)
    (get_user_info : String → Except String UserInfo)
    (upsert_account :
      String → Option String → TokenData → Except String Account)
    (refresh_token : String) :
    Except String Unit × List (String × Option String × TokenData) :=
  match refresh_access_token refresh_token with
  | .error e => (.error ("Token 刷新失败: " ++ e), [])
  | .ok token_response =>
    match get_user_info token_response.access_token with
    | .error e => (.error ("获取用户信息失败: " ++ e), [])
    | .ok user_info =>
      let email := user_info.email
      let name := user_info.get_display_name
      let token_data := TokenData.new token_response.access_token
        refresh_token token_response.expires_in (some email) none none
      match upsert_account email name token_data with
      | .error e => (.error e, [(email, name, token_data)])
      | .ok _account => (.ok (), [(email, name, token_data)])

/-! Short-id display (cli.rs lines 173, 183, 246, 257): `account_list`,
`account_delete` and `account_switch` all render `&id[..8]`.  Rust `str`
slicing is byte-based and panics unless the end index is a character
boundary, so the identifier is embedded as its UTF-8 byte sequence and
the panic as `none`. -/

/-- Whether a byte is a UTF-8 continuation byte (`0b10xxxxxx`). -/
def is_utf8_cont (b : Nat) : Bool :=
  128 ≤ b && b < 192

/-- Rust `str::is_char_boundary` on the byte sequence of a string:
index 0 is always a boundary; otherwise the index must either equal the
length or point at a non-continuation byte. -/
def is_char_boundary (bytes : List Nat) (i : Nat) : Bool :=
  if i = 0 then true
  else
    match bytes.get? i with
    | some b => !(is_utf8_cont b)
    | none => i == bytes.length

/-- The short-id cell computed by `account_list` / `account_delete` /
`account_switch`: Rust `&id[..8]` over the identifier's UTF-8 bytes.
`none` models the slicing panic (out of range or not a character
boundary). -/
def short_id_display (id_bytes : List Nat) : Option (List Nat) :=
  if is_char_boundary id_bytes 8 then some (id_bytes.take 8) else none

/-! Configuration model (per the spec's ProxyConfig/AppConfig; the struct
definitions live in the library crate).  Only the fields the CLI touches
are carried. -/

structure UpstreamProxyConfig where
  enabled : Bool
  url : String
deriving DecidableEq, Repr

structure ZaiConfig where
  enabled : Bool
deriving DecidableEq, Repr

structure ProxyConfig where
  enabled : Bool
  port : Nat
  api_key : String
  allow_lan_access : Bool
  auto_start : Bool
  request_timeout : Nat
  enable_logging : Bool
  upstream_proxy : UpstreamProxyConfig
  zai : ZaiConfig
deriving DecidableEq, Repr

structure AppConfig where
  language : String
  theme : String
  auto_refresh : Bool
  refresh_interval : Nat
  auto_launch : Bool
  proxy : ProxyConfig
deriving DecidableEq, Repr

/-- Modelled from the spec: `AppConfig::default()` used by the CLI when
loading fails.  The concrete default values live in the library crate and
are irrelevant to the claims, which quantify over the loaded config. -/
def AppConfig.default : AppConfig :=
  ⟨"zh-CN", "auto", true, 300, false,
    ⟨false, 8045, "", false, false, 120, false, ⟨false, ""⟩, ⟨false⟩⟩⟩

/-! `proxy_start` (cli.rs lines 365-440).  Collaborator calls that matter
to the claims are recorded as events: invoking `AxumServer::start` (with
the host and port it is given), `server.stop()`, awaiting the join
handle, and printing the service-stopped message. -/

inductive ProxyEvent where
  | serverStart (host : String) (port : Nat)
  | serverStop
  | joinAwait
  | printStopped
deriving DecidableEq, Repr

/-- Whether an event is the `AxumServer::start` invocation. -/
def ProxyEvent.isStart : ProxyEvent → Bool
  | .serverStart _ _ => true
  | _ => false

/-- `proxy_start`.  `load_app_config` stands for
`modules::config::load_app_config()` (falling back to the default on
error), `load_accounts` for `TokenManager::load_accounts` returning the
pool size, `start_server` for `AxumServer::start` (applied to the chosen
host and port), `ctrl_c` for `tokio::signal::ctrl_c()`.  Returns the
`Result` together with the ordered event trace. -/
def proxy_start (load_app_config : Except String AppConfig)
    (load_accounts : Except String Nat)
    (start_server : String → Nat → Except String Unit)
    (ctrl_c : Except String Unit)
    (port : Nat) (lan : Bool) : Except String Unit × List ProxyEvent :=
  let config0 :=
    match load_app_config with
    | .ok c => c
    | .error _ => AppConfig.default
  let _config := { config0 with proxy :=
    { config0.proxy with port := port, allow_lan_access := lan } }
  let host := if lan then "0.0.0.0" else "127.0.0.1"
  match load_accounts with
  | .error e => (.error ("加载账号失败: " ++ e), [])
  | .ok account_count =>
    if account_count = 0 then
      (.error ("没有可用的账号，请先添加账号"), [])
    else
      match start_server host port with
      | .error e => (.error e, [.serverStart host port])
      | .ok _ =>
        match ctrl_c with
        | .error e =>
          (.error ("信号处理失败: " ++ e), [.serverStart host port])
        | .ok _ =>
          (.ok (), [.serverStart host port, .serverStop, .joinAwait,
            .printStopped])

/-! `config_set` (cli.rs lines 518-546): parse the value according to the
key, update the in-memory config, then `save_app_config`. -/

/-- Rust `bool::FromStr`: exactly the strings true and false parse. -/
def parseRustBool (s : String) : Option Bool :=
  if s = "true" then some true
  else if s = "false" then some false
  else none

/-- Digit run to value; `none` when empty or a non-digit occurs
(mirrors Rust unsigned-integer `FromStr` on the digit part). -/
def digitsVal (cs : List Char) : Option Nat :=
  if cs = [] then none
  else if cs.all Char.isDigit then
    some (cs.foldl (fun n c => n * 10 + (c.toNat - 48)) 0)
  else none

/-- Upper bound of `u16` values (one past `u16::MAX`). -/
def u16_bound : Nat := 2 ^ 16

/-- Upper bound of `u64` values (one past `u64::MAX`). -/
def u64_bound : Nat := 2 ^ 64

/-- Rust unsigned-integer `FromStr` (modelled): optional leading plus
sign, a non-empty digit run, and a range check against the type's bound
(`u16_bound` for `u16`, `u64_bound` for `u64`). -/
def parseRustUnsigned (s : String) (bound : Nat) : Option Nat :=
  let cs :=
    match s.data with
    | '+' :: rest => rest
    | cs => cs
  match digitsVal cs with
  | some n => if n < bound then some n else none
  | none => none

/-- The key dispatch of `config_set`: `Ok` with the updated config when
the key is recognized and the value parses, `Err` otherwise (a direct
rendering of the Rust `match key` block). -/
def config_set_update (config : AppConfig) (key value : String) :
    Except String AppConfig :=
  if key = "language" then .ok { config with language := value }
  else if key = "theme" then .ok { config with theme := value }
  else if key = "auto_refresh" then
    match parseRustBool value with
    | some b => .ok { config with auto_refresh := b }
    | none => .error ("无效的布尔值")
  else if key = "refresh_interval" then
    match parseRustUnsigned value u64_bound with
    | some n => .ok { config with refresh_interval := n }
    | none => .error ("无效的整数")
  else if key = "auto_launch" then
    match parseRustBool value with
    | some b => .ok { config with auto_launch := b }
    | none => .error ("无效的布尔值")
  else if key = "proxy.enabled" then
    match parseRustBool value with
    | some b => .ok { config with proxy := { config.proxy with enabled := b } }
    | none => .error ("无效的布尔值")
  else if key = "proxy.port" then
    match parseRustUnsigned value u16_bound with
    | some n => .ok { config with proxy := { config.proxy with port := n } }
    | none => .error ("无效的端口号")
  else if key = "proxy.api_key" then
    .ok { config with proxy := { config.proxy with api_key := value } }
  else if key = "proxy.allow_lan_access" then
    match parseRustBool value with
    | some b =>
      .ok { config with proxy := { config.proxy with allow_lan_access := b } }
    | none => .error ("无效的布尔值")
  else if key = "proxy.auto_start" then
    match parseRustBool value with
    | some b =>
      .ok { config with proxy := { config.proxy with auto_start := b } }
    | none => .error ("无效的布尔值")
  else if key = "proxy.request_timeout" then
    match parseRustUnsigned value u64_bound with
    | some n =>
      .ok { config with proxy := { config.proxy with request_timeout := n } }
    | none => .error ("无效的整数")
  else if key = "proxy.upstream_proxy.enabled" then
    match parseRustBool value with
    | some b =>
      .ok { config with proxy := { config.proxy with
        upstream_proxy := { config.proxy.upstream_proxy with enabled := b } } }
    | none => .error ("无效的布尔值")
  else if key = "proxy.upstream_proxy.url" then
    .ok { config with proxy := { config.proxy with
      upstream_proxy := { config.proxy.upstream_proxy with url := value } } }
  else .error ("未知的配置项: " ++ key)

/-- Rust `load_app_config().unwrap_or_else(|_| AppConfig::default())`. -/
def config_fallback (load_app_config : Except String AppConfig) : AppConfig :=
  match load_app_config with
  | .ok c => c
  | .error _ => AppConfig.default

/-- `config_set`: load (default on failure), dispatch on the key, and
persist via `save_app_config` only on a successful update.  The second
component records the configs passed to `save_app_config`. -/
def config_set (load_app_config : Except String AppConfig)
    (save_app_config : AppConfig → Except String Unit)
    (key value : String) : Except String Unit × List AppConfig :=
  match config_set_update (config_fallback load_app_config) key value with
  | .error e => (.error e, [])
  | .ok c =>
    match save_app_config c with
    | .error e => (.error e, [c])
    | .ok _ => (.ok (), [c])

/-- Spec-side characterization for the config-set claim, written from the
spec's words: the key is one of the recognized keys and the value parses
into the key's type. -/
def config_set_accepts (key value : String) : Bool :=
  if key = "language" then true
  else if key = "theme" then true
  else if key = "auto_refresh" then (parseRustBool value).isSome
  else if key = "refresh_interval" then
    (parseRustUnsigned value u64_bound).isSome
  else if key = "auto_launch" then (parseRustBool value).isSome
  else if key = "proxy.enabled" then (parseRustBool value).isSome
  else if key = "proxy.port" then (parseRustUnsigned value u16_bound).isSome
  else if key = "proxy.api_key" then true
  else if key = "proxy.allow_lan_access" then (parseRustBool value).isSome
  else if key = "proxy.auto_start" then (parseRustBool value).isSome
  else if key = "proxy.request_timeout" then
    (parseRustUnsigned value u64_bound).isSome
  else if key = "proxy.upstream_proxy.enabled" then
    (parseRustBool value).isSome
  else if key = "proxy.upstream_proxy.url" then true
  else false

/-! Theorems -/

/-- The exact-match test of `resolve_account_id` is membership of the id
in the index. -/
theorem resolve_exact_test (index : AccountIndex) (id : String) :
    (index.accounts.any (fun a => a.id == id) = true) ↔
      id ∈ index.accounts.map AccountIndexEntry.id := by
  simp only [List.any_eq_true, List.mem_map, beq_iff_eq]

/-- Any id returned by `resolve_account_id` is an identifier present in
the index. -/
theorem resolve_account_id_ok_mem (index : AccountIndex) (id fid : String)
    (h : resolve_account_id index id = .ok fid) :
    fid ∈ index.accounts.map AccountIndexEntry.id := by
  unfold resolve_account_id at h
  by_cases hc : index.accounts.any (fun a => a.id == id) = true
  · rw [if_pos hc] at h
    injection h with h2
    subst h2
    exact (resolve_exact_test index id).mp hc
  · rw [if_neg hc] at h
    cases hfil : index.accounts.filter (fun a => str_starts_with a.id id) with
    | nil =>
      rw [hfil] at h
      exact Except.noConfusion h
    | cons a t =>
      cases t with
      | nil =>
        rw [hfil] at h
        injection h with h2
        subst h2
        have ha : a ∈ index.accounts :=
          List.mem_of_mem_filter (hfil ▸ List.mem_cons_self a [])
        exact List.mem_map.mpr ⟨a, ha, rfl⟩
      | cons b t2 =>
        rw [hfil] at h
        exact Except.noConfusion h

/-- C8: short-id resolution — an exact match wins; otherwise a unique
prefix match is returned; zero or several prefix matches are errors. -/
theorem resolve_account_id_spec (index : AccountIndex) (id : String) :
    (id ∈ index.accounts.map AccountIndexEntry.id →
      resolve_account_id index id = .ok id) ∧
    (id ∉ index.accounts.map AccountIndexEntry.id →
      ∀ a, index.accounts.filter (fun a => str_starts_with a.id id) = [a] →
        resolve_account_id index id = .ok a.id) ∧
    (id ∉ index.accounts.map AccountIndexEntry.id →
      index.accounts.filter (fun a => str_starts_with a.id id) = [] →
        ∃ e, resolve_account_id index id = .error e) ∧
    (id ∉ index.accounts.map AccountIndexEntry.id →
      2 ≤ (index.accounts.filter (fun a => str_starts_with a.id id)).length →
        ∃ e, resolve_account_id index id = .error e) := by
  refine ⟨?_, ?_, ?_, ?_⟩
  · intro h
    unfold resolve_account_id
    rw [if_pos ((resolve_exact_test index id).mpr h)]
  · intro h a hfil
    unfold resolve_account_id
    rw [if_neg (fun hc => h ((resolve_exact_test index id).mp hc)), hfil]
  · intro h hfil
    refine ⟨"找不到账号: " ++ id, ?_⟩
    unfold resolve_account_id
    rw [if_neg (fun hc => h ((resolve_exact_test index id).mp hc)), hfil]
  · intro h hlen
    cases hfil : index.accounts.filter (fun a => str_starts_with a.id id) with
    | nil =>
      rw [hfil] at hlen
      simp at hlen
    | cons a t =>
      cases t with
      | nil =>
        rw [hfil] at hlen
        simp at hlen
      | cons b t2 =>
        refine ⟨"ID 前缀 " ++ id ++ " 匹配多个账号，请提供更长的 ID", ?_⟩
        unfold resolve_account_id
        rw [if_neg (fun hc => h ((resolve_exact_test index id).mp hc)), hfil]

/-- C8 witness: exact match, unique prefix, no match, ambiguous match on
concrete indices. -/
theorem resolve_account_id_spec_witness :
    resolve_account_id ⟨[⟨"abcd1234"⟩, ⟨"abzz9999"⟩]⟩ ("abcd1234") =
      .ok ("abcd1234") ∧
    resolve_account_id ⟨[⟨"abcd1234"⟩, ⟨"abzz9999"⟩]⟩ ("abc") =
      .ok ("abcd1234") ∧
    (∃ e, resolve_account_id ⟨[⟨"abcd1234"⟩, ⟨"abzz9999"⟩]⟩ ("zz") =
      .error e) ∧
    (∃ e, resolve_account_id ⟨[⟨"abcd1234"⟩, ⟨"abzz9999"⟩]⟩ ("ab") =
      .error e) := by
  refine ⟨?_, ?_, ?_, ?_⟩
  · exact (resolve_account_id_spec ⟨[⟨"abcd1234"⟩, ⟨"abzz9999"⟩]⟩
      ("abcd1234")).1 (by decide)
  · exact (resolve_account_id_spec ⟨[⟨"abcd1234"⟩, ⟨"abzz9999"⟩]⟩
      ("abc")).2.1 (by decide) ⟨"abcd1234"⟩ (by decide)
  · exact (resolve_account_id_spec ⟨[⟨"abcd1234"⟩, ⟨"abzz9999"⟩]⟩
      ("zz")).2.2.1 (by decide) (by decide)
  · exact (resolve_account_id_spec ⟨[⟨"abcd1234"⟩, ⟨"abzz9999"⟩]⟩
      ("ab")).2.2.2 (by decide) (by decide)

/-- C5: every identifier passed to `set_current_account_id` by
`account_switch` is present in the account index. -/
theorem account_switch_current_in_index (index : AccountIndex)
    (load_account : String → Except String Account)
    (set_current_account_id : String → Except String Unit) (id : String) :
    ∀ cid,
      cid ∈ (account_switch index load_account set_current_account_id id).2 →
      cid ∈ index.accounts.map AccountIndexEntry.id := by
  intro cid hm
  cases hres : resolve_account_id index id with
  | error e => simp [account_switch, hres] at hm
  | ok full_id =>
    cases hload : load_account full_id with
    | error e => simp [account_switch, hres, hload] at hm
    | ok acc =>
      have hcid : cid = full_id := by
        cases hset : set_current_account_id full_id with
        | error e =>
          simp [account_switch, hres, hload, hset] at hm
          exact hm
        | ok u =>
          simp [account_switch, hres, hload, hset] at hm
          exact hm
      subst hcid
      exact resolve_account_id_ok_mem index id cid hres

/-- C5 witness: a concrete switch run whose set-current call is in the
index. -/
theorem account_switch_current_in_index_witness :
    ("abcd1234" : String) ∈
      (AccountIndex.mk [⟨"abcd1234"⟩]).accounts.map AccountIndexEntry.id :=
  account_switch_current_in_index ⟨[⟨"abcd1234"⟩]⟩
    (fun i => .ok ⟨i, ("e@x"), none, ⟨("a"), ("r"), 0, none, none, none⟩,
      none⟩)
    (fun _ => .ok ()) ("abcd1234") ("abcd1234") (by decide)

/-- C9: the `&id[..8]` short-id display is panic-free exactly under the
precondition that the identifier is at least 8 bytes long with a UTF-8
character boundary at byte 8; an identifier shorter than 8 bytes
panics. -/
theorem short_id_display_spec :
    (∀ bs : List Nat, 8 ≤ bs.length → is_char_boundary bs 8 = true →
      short_id_display bs = some (bs.take 8)) ∧
    (∀ bs : List Nat, bs.length < 8 → short_id_display bs = none) := by
  constructor
  · intro bs _ hb
    unfold short_id_display
    rw [hb]
    simp
  · intro bs hlen
    have hb : is_char_boundary bs 8 = false := by
      unfold is_char_boundary
      rw [if_neg (by omega : ¬(8 = 0))]
      rw [List.get?_eq_none.mpr (le_of_lt hlen)]
      simp only [beq_eq_false_iff_ne, ne_eq]
      omega
    unfold short_id_display
    rw [hb]
    simp

/-- C9 witness: a 9-byte ASCII identifier renders its first 8 bytes; a
3-byte identifier panics. -/
theorem short_id_display_spec_witness :
    short_id_display [97, 98, 99, 100, 101, 102, 103, 104, 105] =
      some [97, 98, 99, 100, 101, 102, 103, 104] ∧
    short_id_display [97, 98, 99] = none := by
  refine ⟨?_, ?_⟩
  · exact short_id_display_spec.1
      [97, 98, 99, 100, 101, 102, 103, 104, 105] (by decide) (by decide)
  · exact short_id_display_spec.2 [97, 98, 99] (by decide)

/-- C1: an empty pool at proxy start yields the pool-empty error with no
server-start event; any non-zero pool size reaches the
`AxumServer::start` invocation. -/
theorem proxy_start_pool_empty (load_app_config : Except String AppConfig)
    (load_accounts : Except String Nat)
    (start_server : String → Nat → Except String Unit)
    (ctrl_c : Except String Unit) (port : Nat) (lan : Bool) :
    (load_accounts = .ok 0 →
      proxy_start load_app_config load_accounts start_server ctrl_c
        port lan = (.error ("没有可用的账号，请先添加账号"), [])) ∧
    (∀ n, load_accounts = .ok n → n ≠ 0 →
      ProxyEvent.serverStart (if lan then "0.0.0.0" else "127.0.0.1")
          port ∈
        (proxy_start load_app_config load_accounts start_server ctrl_c
          port lan).2) := by
  constructor
  · intro h
    simp [proxy_start, h]
  · intro n h hn
    cases hs : start_server (if lan then "0.0.0.0" else "127.0.0.1")
        port with
    | error e => simp [proxy_start, h, hn, hs]
    | ok u =>
      cases hc : ctrl_c with
      | error e => simp [proxy_start, h, hn, hs, hc]
      | ok v => simp [proxy_start, h, hn, hs, hc]

/-- C1 witness: pool of size 0 refuses to start; pool of size 3 reaches
the server-start invocation. -/
theorem proxy_start_pool_empty_witness :
    proxy_start (.error ("x")) (.ok 0) (fun _ _ => .ok ()) (.ok ())
      8045 false = (.error ("没有可用的账号，请先添加账号"), []) ∧
    ProxyEvent.serverStart ("127.0.0.1") 8045 ∈
      (proxy_start (.error ("x")) (.ok 3) (fun _ _ => .ok ()) (.ok ())
        8045 false).2 := by
  refine ⟨?_, ?_⟩
  · exact (proxy_start_pool_empty (.error ("x")) (.ok 0)
      (fun _ _ => .ok ()) (.ok ()) 8045 false).1 rfl
  · exact (proxy_start_pool_empty (.error ("x")) (.ok 3)
      (fun _ _ => .ok ()) (.ok ()) 8045 false).2 3 rfl (by decide)

/-- C2: every `AxumServer::start` invocation recorded by `proxy_start`
carries the host chosen from the LAN flag — loopback when LAN access is
off, 0.0.0.0 when on — together with the given port, and at most one
such invocation occurs per run. -/
theorem proxy_start_host_policy (load_app_config : Except String AppConfig)
    (load_accounts : Except String Nat)
    (start_server : String → Nat → Except String Unit)
    (ctrl_c : Except String Unit) (port : Nat) (lan : Bool) :
    (∀ h p, ProxyEvent.serverStart h p ∈
        (proxy_start load_app_config load_accounts start_server ctrl_c
          port lan).2 →
      h = (if lan then "0.0.0.0" else "127.0.0.1") ∧ p = port) ∧
    ((proxy_start load_app_config load_accounts start_server ctrl_c
        port lan).2.countP ProxyEvent.isStart ≤ 1) := by
  cases hl : load_accounts with
  | error e =>
    constructor
    · intro h p hm
      simp [proxy_start, hl] at hm
    · simp [proxy_start, hl]
  | ok n =>
    by_cases hn : n = 0
    · subst hn
      constructor
      · intro h p hm
        simp [proxy_start, hl] at hm
      · simp [proxy_start, hl]
    · cases hs : start_server (if lan then "0.0.0.0" else "127.0.0.1")
          port with
      | error e =>
        constructor
        · intro h p hm
          simp [proxy_start, hl, hn, hs] at hm
          exact hm
        · simp [proxy_start, hl, hn, hs, List.countP_cons,
            ProxyEvent.isStart]
      | ok u =>
        cases hc : ctrl_c with
        | error e =>
          constructor
          · intro h p hm
            simp [proxy_start, hl, hn, hs, hc] at hm
            exact hm
          · simp [proxy_start, hl, hn, hs, hc, List.countP_cons,
              ProxyEvent.isStart]
        | ok v =>
          constructor
          · intro h p hm
            simp [proxy_start, hl, hn, hs, hc] at hm
            exact hm
          · simp [proxy_start, hl, hn, hs, hc, List.countP_cons,
              ProxyEvent.isStart]

/-- C2 witness: with the LAN flag set the recorded start host is
0.0.0.0, and a concrete run performs at most one start invocation. -/
theorem proxy_start_host_policy_witness :
    (("0.0.0.0" : String) =
        (if true then ("0.0.0.0" : String) else ("127.0.0.1" : String)) ∧
      (8045 : Nat) = 8045) ∧
    ((proxy_start (.ok AppConfig.default) (.ok 1) (fun _ _ => .ok ())
        (.ok ()) 8045 true).2.countP ProxyEvent.isStart ≤ 1) := by
  refine ⟨?_, ?_⟩
  · exact (proxy_start_host_policy (.ok AppConfig.default) (.ok 1)
      (fun _ _ => .ok ()) (.ok ()) 8045 true).1 ("0.0.0.0") 8045
      (by decide)
  · exact (proxy_start_host_policy (.ok AppConfig.default) (.ok 1)
      (fun _ _ => .ok ()) (.ok ()) 8045 true).2

/-- C6: a successful `proxy_start` run ends with exactly the ordered
shutdown sequence start, stop, join-await, stopped-report — the service
is reported stopped only after the join handle has completed — and the
stopped report only ever appears in successful runs. -/
theorem proxy_start_shutdown_order (load_app_config : Except String AppConfig)
    (load_accounts : Except String Nat)
    (start_server : String → Nat → Except String Unit)
    (ctrl_c : Except String Unit) (port : Nat) (lan : Bool) :
    ((proxy_start load_app_config load_accounts start_server ctrl_c
        port lan).1 = .ok () →
      (proxy_start load_app_config load_accounts start_server ctrl_c
        port lan).2 =
        [ProxyEvent.serverStart (if lan then "0.0.0.0" else "127.0.0.1")
          port, ProxyEvent.serverStop, ProxyEvent.joinAwait,
          ProxyEvent.printStopped]) ∧
    (ProxyEvent.printStopped ∈
        (proxy_start load_app_config load_accounts start_server ctrl_c
          port lan).2 →
      (proxy_start load_app_config load_accounts start_server ctrl_c
        port lan).1 = .ok ()) := by
  cases hl : load_accounts with
  | error e =>
    constructor
    · intro h
      simp [proxy_start, hl] at h
    · intro h
      simp [proxy_start, hl] at h
  | ok n =>
    by_cases hn : n = 0
    · subst hn
      constructor
      · intro h
        simp [proxy_start, hl] at h
      · intro h
        simp [proxy_start, hl] at h
    · cases hs : start_server (if lan then "0.0.0.0" else "127.0.0.1")
          port with
      | error e =>
        constructor
        · intro h
          simp [proxy_start, hl, hn, hs] at h
        · intro h
          simp [proxy_start, hl, hn, hs] at h
      | ok u =>
        cases hc : ctrl_c with
        | error e =>
          constructor
          · intro h
            simp [proxy_start, hl, hn, hs, hc] at h
          · intro h
            simp [proxy_start, hl, hn, hs, hc] at h
        | ok v =>
          constructor
          · intro h
            simp [proxy_start, hl, hn, hs, hc]
          · intro h
            simp [proxy_start, hl, hn, hs, hc]

/-- C6 witness: a concrete successful run produces exactly the ordered
shutdown trace. -/
theorem proxy_start_shutdown_order_witness :
    (proxy_start (.ok AppConfig.default) (.ok 2) (fun _ _ => .ok ())
      (.ok ()) 8045 false).2 =
      [ProxyEvent.serverStart ("127.0.0.1") 8045, ProxyEvent.serverStop,
        ProxyEvent.joinAwait, ProxyEvent.printStopped] :=
  (proxy_start_shutdown_order (.ok AppConfig.default) (.ok 2)
    (fun _ _ => .ok ()) (.ok ()) 8045 false).1 (by rfl)

/-- C7: `account_add` first exchanges the refresh token, then fetches
user info with the newly obtained access token, and upserts a record
holding the new access token, the original refresh token, the returned
expiry and the fetched email; failure of either OAuth call surfaces an
error with no upsert call. -/
theorem account_add_flow
    (refresh_access_token : String → Except String TokenResponse)
    (get_user_info : String → Except String UserInfo)
    (upsert_account :
      String → Option String → TokenData → Except String Account)
    (rt : String) :
    (∀ e, refresh_access_token rt = .error e →
      account_add refresh_access_token get_user_info upsert_account rt =
        (.error ("Token 刷新失败: " ++ e), [])) ∧
    (∀ tr e, refresh_access_token rt = .ok tr →
      get_user_info tr.access_token = .error e →
      account_add refresh_access_token get_user_info upsert_account rt =
        (.error ("获取用户信息失败: " ++ e), [])) ∧
    (∀ tr ui acc, refresh_access_token rt = .ok tr →
      get_user_info tr.access_token = .ok ui →
      upsert_account ui.email ui.get_display_name
        (TokenData.new tr.access_token rt tr.expires_in (some ui.email)
          none none) = .ok acc →
      account_add refresh_access_token get_user_info upsert_account rt =
        (.ok (), [(ui.email, ui.get_display_name,
          TokenData.new tr.access_token rt tr.expires_in (some ui.email)
            none none)])) := by
  refine ⟨?_, ?_, ?_⟩
  · intro e h
    simp [account_add, h]
  · intro tr e h1 h2
    simp [account_add, h1, h2]
  · intro tr ui acc h1 h2 h3
    simp [account_add, h1, h2, h3]

/-- C7 witness: a concrete successful add upserts exactly the expected
token record, applying the flow theorem at concrete collaborators. -/
theorem account_add_flow_witness :
    account_add (fun _ => .ok ⟨("at1"), 3600⟩)
      (fun _ => .ok ⟨("e@x"), some ("Nm")⟩)
      (fun _ _ _ =>
        .ok ⟨("abcd1234"), ("e@x"), none,
          ⟨("at1"), ("rt1"), 3600, some ("e@x"), none, none⟩, none⟩)
      ("rt1") =
      (.ok (), [(("e@x"), some ("Nm"),
        TokenData.new ("at1") ("rt1") 3600 (some ("e@x")) none none)]) :=
  (account_add_flow (fun _ => .ok ⟨("at1"), 3600⟩)
    (fun _ => .ok ⟨("e@x"), some ("Nm")⟩)
    (fun _ _ _ =>
      .ok ⟨("abcd1234"), ("e@x"), none,
        ⟨("at1"), ("rt1"), 3600, some ("e@x"), none, none⟩, none⟩)
    ("rt1")).2.2 ⟨("at1"), 3600⟩ ⟨("e@x"), some ("Nm")⟩
    ⟨("abcd1234"), ("e@x"), none,
      ⟨("at1"), ("rt1"), 3600, some ("e@x"), none, none⟩, none⟩
    rfl rfl rfl

/-- The refresh loop's fold, characterized pointwise: final states, save
calls and both counters as functions of the per-account outcomes. -/
theorem account_refresh_foldl
    (fetch_quota : Account → Except String Quota)
    (save_account : Account → Except String Unit)
    (accounts : List Account) (r : RefreshOutcome) :
    accounts.foldl (refresh_step fetch_quota save_account) r =
      ⟨r.final ++ accounts.map (refresh_final fetch_quota),
       r.saved ++ accounts.filterMap (refresh_saved fetch_quota),
       r.success_count +
         accounts.countP (refresh_success fetch_quota save_account),
       r.error_count +
         accounts.countP
           (fun a => !(refresh_success fetch_quota save_account a))⟩ := by
  induction accounts generalizing r with
  | nil => simp
  | cons a t ih =>
    rw [List.foldl_cons, ih]
    cases hf : fetch_quota a with
    | ok q =>
      cases hs : save_account (a.update_quota q) with
      | ok u =>
        simp [refresh_step, refresh_one, refresh_final, refresh_saved,
          refresh_success, hf, hs, List.countP_cons,
          RefreshOutcome.mk.injEq, List.filterMap_cons]
        omega
      | error e =>
        simp [refresh_step, refresh_one, refresh_final, refresh_saved,
          refresh_success, hf, hs, List.countP_cons,
          RefreshOutcome.mk.injEq, List.filterMap_cons]
        omega
    | error e =>
      simp [refresh_step, refresh_one, refresh_final, refresh_saved,
        refresh_success, hf, List.countP_cons, RefreshOutcome.mk.injEq,
        List.filterMap_cons]
      omega

/-- The two counters split the account list. -/
theorem countP_not_total (p : Account → Bool) (l : List Account) :
    l.countP p + l.countP (fun a => !(p a)) = l.length := by
  induction l with
  | nil => simp
  | cons a t ih =>
    by_cases h : p a = true <;>
      simp [List.countP_cons, h] <;> omega

/-- C3: the batch refresh processes every account of a non-empty list,
returns `Ok`, and its success and error counters sum to the number of
accounts processed. -/
theorem account_refresh_batch
    (fetch_quota : Account → Except String Quota)
    (save_account : Account → Except String Unit)
    (accounts : List Account) (hne : accounts ≠ []) :
    (account_refresh fetch_quota save_account accounts).2 = .ok () ∧
    (account_refresh fetch_quota save_account accounts).1.success_count +
      (account_refresh fetch_quota save_account accounts).1.error_count =
      accounts.length ∧
    (account_refresh fetch_quota save_account accounts).1.final.length =
      accounts.length := by
  unfold account_refresh
  rw [if_neg (by simpa using hne)]
  rw [account_refresh_foldl]
  refine ⟨rfl, ?_, ?_⟩
  · simpa using countP_not_total
      (refresh_success fetch_quota save_account) accounts
  · simp

/-- C3 witness: a two-account batch with one failing fetch still returns
`Ok` with counters summing to two. -/
theorem account_refresh_batch_witness :
    (account_refresh
        (fun a => if a.id = ("a1") then .ok ⟨none, false, []⟩
          else .error ("boom"))
        (fun _ => .ok ())
        [⟨("a1"), ("e1"), none, ⟨("t"), ("r"), 0, none, none, none⟩, none⟩,
         ⟨("a2"), ("e2"), none, ⟨("t"), ("r"), 0, none, none, none⟩,
           none⟩]).2 = .ok () ∧
    (account_refresh
        (fun a => if a.id = ("a1") then .ok ⟨none, false, []⟩
          else .error ("boom"))
        (fun _ => .ok ())
        [⟨("a1"), ("e1"), none, ⟨("t"), ("r"), 0, none, none, none⟩, none⟩,
         ⟨("a2"), ("e2"), none, ⟨("t"), ("r"), 0, none, none, none⟩,
           none⟩]).1.success_count +
      (account_refresh
        (fun a => if a.id = ("a1") then .ok ⟨none, false, []⟩
          else .error ("boom"))
        (fun _ => .ok ())
        [⟨("a1"), ("e1"), none, ⟨("t"), ("r"), 0, none, none, none⟩, none⟩,
         ⟨("a2"), ("e2"), none, ⟨("t"), ("r"), 0, none, none, none⟩,
           none⟩]).1.error_count = 2 :=
  have h := account_refresh_batch
    (fun a => if a.id = ("a1") then .ok ⟨none, false, []⟩
      else .error ("boom"))
    (fun _ => .ok ())
    [⟨("a1"), ("e1"), none, ⟨("t"), ("r"), 0, none, none, none⟩, none⟩,
     ⟨("a2"), ("e2"), none, ⟨("t"), ("r"), 0, none, none, none⟩, none⟩]
    (by decide)
  ⟨h.1, h.2.1⟩

/-- C4: the refresh loop leaves an account whose quota fetch failed
untouched — its final state is its original state — and issues a
`save_account` call exactly for the accounts whose fetch succeeded, with
the updated quota (`refresh_final` and `refresh_saved` spell out both
per-account outcomes: on a fetch error the record is returned unchanged
and no save is emitted). -/
theorem account_refresh_frame
    (fetch_quota : Account → Except String Quota)
    (save_account : Account → Except String Unit)
    (accounts : List Account) :
    (account_refresh fetch_quota save_account accounts).1.final =
      accounts.map (refresh_final fetch_quota) ∧
    (account_refresh fetch_quota save_account accounts).1.saved =
      accounts.filterMap (refresh_saved fetch_quota) := by
  unfold account_refresh
  by_cases h : accounts.isEmpty
  · have he : accounts = [] := by simpa using h
    subst he
    simp
  · rw [if_neg h, account_refresh_foldl]
    exact ⟨by simp, by simp⟩

/-- The key dispatch succeeds exactly when the spec-side acceptance
predicate holds: the key is recognized and the value parses. -/
theorem config_set_update_ok_iff (config : AppConfig) (key value : String) :
    config_set_accepts key value = true ↔
      ∃ c, config_set_update config key value = .ok c := by
  by_cases h1 : key = "language"
  · subst h1
    simp [config_set_update, config_set_accepts]
  by_cases h2 : key = "theme"
  · subst h2
    simp [config_set_update, config_set_accepts]
  by_cases h3 : key = "auto_refresh"
  · subst h3
    cases hp : parseRustBool value <;>
      simp [config_set_update, config_set_accepts, hp]
  by_cases h4 : key = "refresh_interval"
  · subst h4
    cases hp : parseRustUnsigned value u64_bound <;>
      simp [config_set_update, config_set_accepts, hp]
  by_cases h5 : key = "auto_launch"
  · subst h5
    cases hp : parseRustBool value <;>
      simp [config_set_update, config_set_accepts, hp]
  by_cases h6 : key = "proxy.enabled"
  · subst h6
    cases hp : parseRustBool value <;>
      simp [config_set_update, config_set_accepts, hp]
  by_cases h7 : key = "proxy.port"
  · subst h7
    cases hp : parseRustUnsigned value u16_bound <;>
      simp [config_set_update, config_set_accepts, hp]
  by_cases h8 : key = "proxy.api_key"
  · subst h8
    simp [config_set_update, config_set_accepts]
  by_cases h9 : key = "proxy.allow_lan_access"
  · subst h9
    cases hp : parseRustBool value <;>
      simp [config_set_update, config_set_accepts, hp]
  by_cases h10 : key = "proxy.auto_start"
  · subst h10
    cases hp : parseRustBool value <;>
      simp [config_set_update, config_set_accepts, hp]
  by_cases h11 : key = "proxy.request_timeout"
  · subst h11
    cases hp : parseRustUnsigned value u64_bound <;>
      simp [config_set_update, config_set_accepts, hp]
  by_cases h12 : key = "proxy.upstream_proxy.enabled"
  · subst h12
    cases hp : parseRustBool value <;>
      simp [config_set_update, config_set_accepts, hp]
  by_cases h13 : key = "proxy.upstream_proxy.url"
  · subst h13
    simp [config_set_update, config_set_accepts]
  simp [config_set_update, config_set_accepts, h1, h2, h3, h4, h5, h6,
    h7, h8, h9, h10, h11, h12, h13]

/-- C10: `config_set` persists the configuration exactly when the key is
recognized and the value parses into the key's type; on an unknown key
or an unparsable value it returns an error and `save_app_config` is
never invoked. -/
theorem config_set_atomic (load_app_config : Except String AppConfig)
    (save_app_config : AppConfig → Except String Unit)
    (key value : String) :
    (config_set_accepts key value = false →
      ∃ e, config_set load_app_config save_app_config key value =
        (.error e, [])) ∧
    (config_set_accepts key value = true →
      ∃ c, (config_set load_app_config save_app_config key value).2 =
        [c]) := by
  constructor
  · intro hacc
    cases hu : config_set_update (config_fallback load_app_config)
        key value with
    | ok c =>
      exfalso
      have ht := (config_set_update_ok_iff (config_fallback load_app_config)
        key value).mpr ⟨c, hu⟩
      rw [hacc] at ht
      exact Bool.noConfusion ht
    | error e =>
      exact ⟨e, by simp [config_set, hu]⟩
  · intro hacc
    obtain ⟨c, hu⟩ := (config_set_update_ok_iff
      (config_fallback load_app_config) key value).mp hacc
    cases hs : save_app_config c with
    | ok u => exact ⟨c, by simp [config_set, hu, hs]⟩
    | error e => exact ⟨c, by simp [config_set, hu, hs]⟩

/-- C10 witness: an unknown key is rejected without saving, and a valid
port assignment produces exactly one save call. -/
theorem config_set_atomic_witness :
    (∃ e, config_set (.ok AppConfig.default) (fun _ => .ok ())
      ("bogus") ("1") = (.error e, [])) ∧
    (∃ c, (config_set (.ok AppConfig.default) (fun _ => .ok ())
      ("proxy.port") ("9000")).2 = [c]) :=
  ⟨(config_set_atomic (.ok AppConfig.default) (fun _ => .ok ())
      ("bogus") ("1")).1 (by decide),
   (config_set_atomic (.ok AppConfig.default) (fun _ => .ok ())
      ("proxy.port") ("9000")).2 (by decide)⟩

end Antigravity
